import Mathlib

/-!
Shallow embedding of the session / room-controller layer of the haxroomie
repository (src/Haxroomie.js and src/room/RoomController.js).

Conventions of the embedding:
* JavaScript objects that the bridge treats as opaque (room configs, room
  info, plugin configs, remote results) are modelled by the small `Value`
  type below.
* Asynchronous collaborators that live outside the two source files
  (RoomOpener.open / RoomOpener.close, page.evaluate, puppeteer.connect,
  puppeteer.launch) are modelled as oracle parameters: each call site takes
  the outcome of the awaited collaborator call as an explicit argument of
  type Except / Option.  The local code never inspects those outcomes other
  than by catching a thrown error, so this is faithful.
* Thrown JavaScript errors are modelled by the `Except .error` constructor;
  each distinct local throw site gets its own constructor of `RCError` or
  `HxError`, named after the message string the source throws.
* Mutation of `this` is modelled by explicit state passing: an operation
  maps the pre-state to (result, post-state, emitted events).
-/

/-- Opaque JavaScript values carried through the bridge (configs, room info,
remote results).  The bridge never inspects their structure. -/
inductive Value where
  | undef
  | vbool (b : Bool)
  | vnum (n : Int)
  | vstr (s : String)
  deriving DecidableEq, Repr

/-- JavaScript truthiness for the `Value` fragment we model:
`undefined`, `false`, `0` and the empty string are falsy. -/
def Value.truthy : Value → Bool
  | .undef => false
  | .vbool b => b
  | .vnum n => !(n == 0)
  | .vstr s => !s.isEmpty

/-- decidable equality for Except outcomes, so that concrete runs of the
embedded operations can be checked by decide. -/
instance {ε α : Type} [DecidableEq ε] [DecidableEq α] :
    DecidableEq (Except ε α) := fun x y =>
  match x, y with
  | .ok a, .ok b =>
    if h : a = b then isTrue (by rw [h]) else isFalse (by simp [h])
  | .error a, .error b =>
    if h : a = b then isTrue (by rw [h]) else isFalse (by simp [h])
  | .ok _, .error _ => isFalse (by simp)
  | .error _, .ok _ => isFalse (by simp)

/-- Room configuration object passed to openRoom (opaque to the bridge). -/
abbrev RoomConfig := Value

/-- Room metadata returned by a successful RoomOpener.open (opaque). -/
abbrev RoomInfo := Value

/-- Errors thrown by RoomController methods, one constructor per local
throw site (named after the thrown message), plus constructors for errors
produced by the remote side and rethrown locally. -/
inductive RCError where
  /-- message: Room is no longer usable. -/
  | unusable
  /-- message: Room is already being opened! -/
  | alreadyOpening
  /-- message: Room is not running. -/
  | notRunning
  /-- message: Missing required argument: (name). -/
  | missingArgument (name : String)
  /-- callRoom envelope unwrap: new Error(result.payload). -/
  | remoteExecution (payload : String)
  /-- error thrown inside page.evaluate while resolving plugin (name):
  message: Cannot load plugin "(name)" from available repositories. -/
  | resolution (name : String)
  /-- any other error surfaced by an awaited collaborator call. -/
  | remote (msg : String)
  deriving DecidableEq, Repr

/-- Mutable per-controller state of RoomController: the three fields the
source assigns after construction (`usable`, `roomInfo`, `openRoomLock`).
`id`, `page`, `timeout` and `roomOpener` are set once in the constructor and
never reassigned, so they are left out of the mutable state. -/
structure RCState where
  usable : Bool
  roomInfo : Option RoomInfo
  openRoomLock : Bool
  deriving DecidableEq, Repr

/-- State established by the RoomController constructor
(RoomController.js lines 185-187). -/
def rcInitState : RCState :=
  { usable := true, roomInfo := none, openRoomLock := false }

/-- the `running` getter: `this.roomInfo ? true : false`.  A non-null
JavaScript object is always truthy, so this is presence of roomInfo. -/
def RCState.running (s : RCState) : Bool :=
  s.roomInfo.isSome

/-- Events emitted by a RoomController (`this.emit(...)` sites). -/
inductive RCEvent where
  | pageError
  | pageCrash
  | errorLogged (msg : String)
  | warningLogged (msg : String)
  | pageClosed
  | openRoomStart (config : RoomConfig)
  | openRoomStop (info : RoomInfo)
  | openRoomError (err : RCError)
  | closeRoomEv
  | roomEvent
  | pluginLoaded
  | pluginRemoved
  | pluginEnabled
  | pluginDisabled
  deriving DecidableEq, Repr

/-! ### Page listeners (registerPageListeners, RoomController.js 222-268)

Each listener maps the pre-state to (post-state, emitted events).  The
`logger.*` calls are fire-and-forget external logging and are not modelled.
-/

/-- listener for the `pageerror` page event: emits page-error, leaves the
state untouched. -/
def onPageErrorListener (s : RCState) : RCState × List RCEvent :=
  (s, [.pageError])

/-- listener for the `error` page event (tab crash): emits page-crash and
sets `usable = false`. -/
def onPageCrashListener (s : RCState) : RCState × List RCEvent :=
  ({ s with usable := false }, [.pageCrash])

/-- benign console-noise filter of the `console` listener. -/
def is404Noise (text : String) : Bool :=
  text.startsWith
    ("Failed to load resource: the server responded with a "
      ++ "status of 404 (Not Found)")

/-- listener for the `console` page event: forwards error-level lines
(minus the known 404 noise) as error-logged and warning-level lines as
warning-logged; never touches the state.  `logMsg` extension with jsHandle
descriptions is remote-supplied text and is folded into `text`. -/
def onConsoleListener (s : RCState) (msgType text : String) :
    RCState × List RCEvent :=
  if msgType == "error" then
    if is404Noise text then (s, [])
    else (s, [.errorLogged text])
  else if msgType == "warning" then (s, [.warningLogged text])
  else (s, [])

/-- listener for the `close` page event: emits page-closed and sets
`usable = false`. -/
def onPageCloseListener (s : RCState) : RCState × List RCEvent :=
  ({ s with usable := false }, [.pageClosed])

/-! ### openRoom / closeRoom / callRoom (RoomController.js 365-411) -/

/-- Synchronous part of openRoom up to and including the point where it is
committed to awaiting `this.roomOpener.open(config)`: the two guard throws,
the open-room-start emission and setting the lock.  Result `.ok ()` means
this call proceeds to invoke RoomOpener.open. -/
def openRoomGuard (s : RCState) (config : RoomConfig) :
    Except RCError Unit × RCState × List RCEvent :=
  if s.usable = false then (.error .unusable, s, [])
  else if s.openRoomLock then (.error .alreadyOpening, s, [])
  else (.ok (), { s with openRoomLock := true }, [.openRoomStart config])

/-- openRoom.  `openResult` is the oracle outcome of the awaited
`this.roomOpener.open(config)` call.  A thrown guard error is `.error`;
the catch branch returns undefined, modelled `.ok none`; success returns
the stored roomInfo, modelled `.ok (some info)`. -/
def openRoom (s : RCState) (config : RoomConfig)
    (openResult : Except RCError RoomInfo) :
    Except RCError (Option RoomInfo) × RCState × List RCEvent :=
  match openRoomGuard s config with
  | (.error e, s1, evs) => (.error e, s1, evs)
  | (.ok _, s1, evs) =>
    match openResult with
    | .error err =>
        (.ok none, { s1 with openRoomLock := false },
          evs ++ [.openRoomError err])
    | .ok info =>
        (.ok (some info),
          { s1 with roomInfo := some info, openRoomLock := false },
          evs ++ [.openRoomStop info])

/-- closeRoom.  `closeResult` is the oracle outcome of the awaited
`this.roomOpener.close()` call; if it throws, the error propagates and
neither the `roomInfo = null` assignment nor the close-room emission runs. -/
def closeRoom (s : RCState) (closeResult : Except RCError Unit) :
    Except RCError Unit × RCState × List RCEvent :=
  if s.usable = false then (.error .unusable, s, [])
  else
    match closeResult with
    | .error e => (.error e, s, [])
    | .ok _ => (.ok (), { s with roomInfo := none }, [.closeRoomEv])

/-- JavaScript falsiness of the `fn` argument of callRoom (a missing
argument or an empty string name is rejected). -/
def fnFalsy : Option String → Bool
  | none => true
  | some s => s.isEmpty

/-- Result envelope of the remote dispatch call
`window.hroomie.callRoom(fn, ...args)` as the local code consumes it:
`result.error` truthy carries `result.payload` as an error message,
otherwise `result.payload.result` is the inner value. -/
inductive RemoteEnvelope where
  | failure (payload : String)
  | success (result : Value)
  deriving DecidableEq, Repr

/-- callRoom.  Returns the outcome together with the number of remote
(page.evaluate) calls issued.  `env` is the oracle envelope returned by the
single remote dispatch call. -/
def callRoom (s : RCState) (fn : Option String) (env : RemoteEnvelope) :
    Except RCError Value × Nat :=
  if s.usable = false then (.error .unusable, 0)
  else if s.running = false then (.error .notRunning, 0)
  else if fnFalsy fn then (.error (.missingArgument "fn"), 0)
  else
    match env with
    | .failure payload => (.error (.remoteExecution payload), 1)
    | .success v => (.ok v, 1)

/-! ### Plugin-management operations (RoomController.js 473-739)

Each operation below takes the oracle outcome of its single
`page.evaluate(...)` call as a `remote` argument and returns the outcome
paired with the number of remote calls it issued.  None of them assigns to
the controller state, so the state is read-only here. -/

/-- Information about a plugin returned from the remote side. -/
structure PluginData where
  id : Int
  name : String
  isEnabled : Bool
  deriving DecidableEq, Repr

/-- getPlugins. -/
def getPlugins (s : RCState)
    (remote : Except RCError (List PluginData)) :
    Except RCError (List PluginData) × Nat :=
  if s.usable = false then (.error .unusable, 0)
  else if s.running = false then (.error .notRunning, 0)
  else (remote, 1)

/-- getPlugin: returns plugin data or null (none) if not found. -/
def getPlugin (s : RCState) (name : String)
    (remote : Except RCError (Option PluginData)) :
    Except RCError (Option PluginData) × Nat :=
  if s.usable = false then (.error .unusable, 0)
  else if s.running = false then (.error .notRunning, 0)
  else (remote, 1)

/-- enablePlugin. -/
def enablePlugin (s : RCState) (name : String)
    (remote : Except RCError Bool) : Except RCError Bool × Nat :=
  if s.usable = false then (.error .unusable, 0)
  else if s.running = false then (.error .notRunning, 0)
  else (remote, 1)

/-- disablePlugin: name may be a single name or an array of names; the
iteration over an array happens on the remote side, in one evaluate call. -/
def disablePlugin (s : RCState) (name : List String)
    (remote : Except RCError Bool) : Except RCError Bool × Nat :=
  if s.usable = false then (.error .unusable, 0)
  else if s.running = false then (.error .notRunning, 0)
  else (remote, 1)

/-- getPluginsThatDependOn. -/
def getPluginsThatDependOn (s : RCState) (name : String)
    (remote : Except RCError (List PluginData)) :
    Except RCError (List PluginData) × Nat :=
  if s.usable = false then (.error .unusable, 0)
  else if s.running = false then (.error .notRunning, 0)
  else (remote, 1)

/-- hasPlugin. -/
def hasPlugin (s : RCState) (plugin : String)
    (remote : Except RCError Bool) : Except RCError Bool × Nat :=
  if s.usable = false then (.error .unusable, 0)
  else if s.running = false then (.error .notRunning, 0)
  else (remote, 1)

/-- addPlugin: remote returns the assigned plugin id, or -1. -/
def addPlugin (s : RCState) (plugin : Value)
    (remote : Except RCError Int) : Except RCError Int × Nat :=
  if s.usable = false then (.error .unusable, 0)
  else if s.running = false then (.error .notRunning, 0)
  else (remote, 1)

/-- addRepository: after the two state guards, a falsy repository argument
is rejected with a TypeError before the remote call. -/
def addRepository (s : RCState) (repository : Option Value)
    (append : Option Bool) (remote : Except RCError Bool) :
    Except RCError Bool × Nat :=
  if s.usable = false then (.error .unusable, 0)
  else if s.running = false then (.error .notRunning, 0)
  else
    match repository with
    | none => (.error (.missingArgument "repository"), 0)
    | some r =>
      if r.truthy = false then (.error (.missingArgument "repository"), 0)
      else (remote, 1)

/-- getRepositories. -/
def getRepositories (s : RCState)
    (remote : Except RCError (List Value)) :
    Except RCError (List Value) × Nat :=
  if s.usable = false then (.error .unusable, 0)
  else if s.running = false then (.error .notRunning, 0)
  else (remote, 1)

/-- clearRepositories. -/
def clearRepositories (s : RCState)
    (remote : Except RCError Unit) : Except RCError Unit × Nat :=
  if s.usable = false then (.error .unusable, 0)
  else if s.running = false then (.error .notRunning, 0)
  else (remote, 1)

/-- Unscoped setPluginConfig loop over `Object.entries(pluginConfig)`:
one awaited page.evaluate per entry, in order, with no try/catch around the
loop body — a rejected evaluate propagates out and aborts the loop.
`resolveEntry` is the oracle outcome of the per-entry remote resolve-and-
merge script.  Returns the outcome and the list of entry names for which a
remote call was actually issued, in order. -/
def setPluginConfigEntries (resolveEntry : String → Value → Except RCError Unit) :
    List (String × Value) → Except RCError Unit × List String
  | [] => (.ok (), [])
  | (name, config) :: rest =>
    match resolveEntry name config with
    | .error e => (.error e, [name])
    | .ok _ =>
      let r := setPluginConfigEntries resolveEntry rest
      (r.1, name :: r.2)

/-- setPluginConfig.  `pluginConfig = none` models a missing/null argument
(the typeof-object check cannot fire on the object values we model).
When `pluginName` is a string the scoped branch issues one remote call with
oracle outcome `scopedRemote`; otherwise the unscoped loop runs.  Returns
the outcome and the names for which a remote call was issued. -/
def setPluginConfig (s : RCState)
    (pluginConfig : Option (List (String × Value)))
    (pluginName : Option String)
    (scopedRemote : Except RCError Unit)
    (resolveEntry : String → Value → Except RCError Unit) :
    Except RCError Unit × List String :=
  if s.usable = false then (.error .unusable, [])
  else if s.running = false then (.error .notRunning, [])
  else
    match pluginConfig with
    | none => (.error (.missingArgument "pluginConfig"), [])
    | some entries =>
      match pluginName with
      | some name =>
        match scopedRemote with
        | .error e => (.error e, [name])
        | .ok _ => (.ok (), [name])
      | none => setPluginConfigEntries resolveEntry entries

/-- getPluginConfig.  Note: unlike every other operation in this file,
the source (RoomController.js 714-739) performs no usable/running guard
here; both branches go straight to page.evaluate. -/
def getPluginConfig (s : RCState) (pluginName : Option String)
    (remoteScoped remoteAll : Except RCError Value) :
    Except RCError Value × Nat :=
  match pluginName with
  | some _ => (remoteScoped, 1)
  | none => (remoteAll, 1)

/-! ### The controller as a step machine

`RCAct` enumerates everything that can touch a controller after
construction: the four page listeners, the inbound room/HHM event entry
points, and the public methods.  The only assignments to `usable`,
`roomInfo` or `openRoomLock` anywhere in RoomController.js are in the
crash and close listeners, in openRoom and in closeRoom; every other
method (callRoom, kick, ban, unban, bannedPlayers, eval, the plugin
operations, onRoomEvent, onHHMEvent) only reads the state, so those are
gathered into the state-preserving act `remoteOnlyOp`. -/
inductive RCAct where
  | pageErrorFires
  | pageCrashFires
  | consoleFires (msgType text : String)
  | pageCloseFires
  | openRoomCall (config : RoomConfig) (openResult : Except RCError RoomInfo)
  | closeRoomCall (closeResult : Except RCError Unit)
  | remoteOnlyOp
  deriving Repr

/-- one step of the controller state. -/
def stepState (s : RCState) : RCAct → RCState
  | .pageErrorFires => (onPageErrorListener s).1
  | .pageCrashFires => (onPageCrashListener s).1
  | .consoleFires t m => (onConsoleListener s t m).1
  | .pageCloseFires => (onPageCloseListener s).1
  | .openRoomCall c r => (openRoom s c r).2.1
  | .closeRoomCall r => (closeRoom s r).2.1
  | .remoteOnlyOp => s

/-- run a sequence of acts from a state. -/
def runActs (s : RCState) (acts : List RCAct) : RCState :=
  acts.foldl stepState s

/-! ### The Haxroomie registry (src/Haxroomie.js)

Browser handles, pages and handed-out session facades are modelled as
references (`Nat`), drawn from an allocation counter in the registry state
so that distinct allocations are distinct references and reference equality
of results is expressible. -/

/-- Errors thrown by Haxroomie methods, one constructor per local throw
site, named after the thrown message. -/
inductive HxError where
  /-- message: INVALID_PORT: 0 -/
  | invalidPort
  /-- message: BROWSER_RUNNING: http://localhost:(port). ... -/
  | browserRunning
  /-- message: Browser is not running! -/
  | browserNotRunning
  /-- message: Missing required argument: sessionID -/
  | missingSessionID
  deriving DecidableEq, Repr

/-- a session id is a string or a number
(`@param {object|string|number} sessionID`). -/
inductive JsId where
  | str (s : String)
  | num (n : Int)
  deriving DecidableEq, Repr

/-- JavaScript falsiness of a JsId. -/
def JsId.falsy : JsId → Bool
  | .str s => s.isEmpty
  | .num n => n == 0

/-- the getSession argument check `!sessionID && sessionID !== 0`:
rejected iff the argument is missing or falsy and not the number 0. -/
def validSessionID : Option JsId → Bool
  | none => false
  | some i => !i.falsy || i == .num 0

/-- One registered RoomController as the registry stores it.  `id` and
`pageRef` are the constructor arguments; `ctrl` is the controller state. -/
structure RC where
  id : JsId
  pageRef : Nat
  ctrl : RCState
  /-- Modelled from the spec: the `session` property that
  `Haxroomie.getSession` / `initSession` read from the stored controller
  (`room.session`).  RoomController.js in src does not declare a `session`
  property (the Session facade class is part of the repository but not
  under src), so following the spec — the registry "maps session
  identifiers to Session instances" and `getSession` with a registered
  identifier "return[s] the existing Session unchanged", stable for the
  session lifetime — it is modelled as a reference fixed at construction
  time and never reassigned. -/
  session : Nat
  deriving DecidableEq, Repr

/-- Registry state: `browser` (null until launched/connected), the
`roomSessions` identifier-to-controller map (insertion ordered), and the
reference-allocation counter. `defaultPage` models `(await
this.browser.pages())[0]`, the pre-existing tab of the browser. -/
structure HaxState where
  browser : Option Nat
  roomSessions : List (JsId × RC)
  defaultPage : Nat
  nextRef : Nat
  deriving DecidableEq, Repr

/-- map lookup for roomSessions (`this.roomSessions[sessionID]`). -/
def lookupSession : List (JsId × RC) → JsId → Option RC
  | [], _ => none
  | p :: rest, i => if p.1 == i then some p.2 else lookupSession rest i

/-- constructor port computation: `this.port = opt.port || 3066`.
A missing or zero (falsy) port falls back to the default 3066. -/
def haxroomiePort : Option Int → Int
  | none => 3066
  | some p => if p == 0 then 3066 else p

/-- Haxroomie constructor, restricted to the port logic the claims are
about (viewport, noSandbox, headless and userDataDir are independent
defaulting of unrelated fields).  Returns the computed port, or the
INVALID_PORT error if the (dead) `this.port === 0` branch fires. -/
def haxroomieCtorPort (optPort : Option Int) : Except HxError Int :=
  let port := haxroomiePort optPort
  if port == 0 then .error .invalidPort else .ok port

/-- getRunningBrowser: tries `puppeteer.connect` (oracle outcome
`connectResult`); on success assigns `this.browser` and returns it, on a
thrown connect error returns null with `this.browser` untouched. -/
def getRunningBrowser (st : HaxState) (connectResult : Option Nat) :
    Option Nat × HaxState :=
  match connectResult with
  | some b => (some b, { st with browser := some b })
  | none => (none, st)

/-- createBrowser: probes for an already-running browser via
getRunningBrowser and throws BROWSER_RUNNING if one is reachable;
otherwise launches one (oracle `launched` is the puppeteer.launch handle)
unless `this.browser` is already set. -/
def createBrowser (st : HaxState) (connectResult : Option Nat)
    (launched : Nat) : Except HxError Nat × HaxState :=
  let probe := getRunningBrowser st connectResult
  match probe.1 with
  | some _ => (.error .browserRunning, probe.2)
  | none =>
    match probe.2.browser with
    | some b => (.ok b, probe.2)
    | none => (.ok launched, { probe.2 with browser := some launched })

/-- initSession: emulates the device on the page (no registry effect),
constructs a RoomController around the page, registers it under the id and
returns `room.session`.  The fresh controller (and its session facade) is
a new allocation. -/
def initSession (st : HaxState) (pageRef : Nat) (sessionID : JsId) :
    Except HxError Nat × HaxState :=
  let rc : RC := { id := sessionID, pageRef := pageRef,
                   ctrl := rcInitState, session := st.nextRef }
  (.ok rc.session,
    { st with roomSessions := st.roomSessions ++ [(sessionID, rc)],
              nextRef := st.nextRef + 1 })

/-- getSession: requires a running browser and a present session id; on
the first-ever session binds the browser default page, on an unseen id
creates a new page (a fresh reference), and on a registered id returns the
stored controller session unchanged. -/
def getSession (st : HaxState) (sessionID : Option JsId) :
    Except HxError Nat × HaxState :=
  match st.browser with
  | none => (.error .browserNotRunning, st)
  | some _ =>
    match sessionID with
    | none => (.error .missingSessionID, st)
    | some i =>
      if i.falsy && !(i == .num 0) then (.error .missingSessionID, st)
      else if st.roomSessions.isEmpty then
        initSession st st.defaultPage i
      else
        match lookupSession st.roomSessions i with
        | none =>
          let newPageRef := st.nextRef
          initSession { st with nextRef := st.nextRef + 1 } newPageRef i
        | some rc => (.ok rc.session, st)

/-- Concrete per-entry resolve oracle for the setPluginConfig scenarios:
the entry named x cannot be auto-loaded from the repositories (the remote
script throws the resolution error), every other entry succeeds. -/
def resolveFailsOnX : String → Value → Except RCError Unit :=
  fun name _ => if name == "x" then .error (.resolution "x") else .ok ()

/-- Fixture: a controller rendered unusable (after a crash or tab close). -/
def rcDead : RCState :=
  { usable := false, roomInfo := none, openRoomLock := false }

/-- Fixture: a usable controller with a room open. -/
def rcRunning : RCState :=
  { usable := true, roomInfo := some (.vstr "r"), openRoomLock := false }

/-- Fixture: a usable controller with an open operation in flight. -/
def rcLocked : RCState :=
  { usable := true, roomInfo := none, openRoomLock := true }

/-- Fixture: a registry with a running browser and no sessions yet. -/
def hxFresh : HaxState :=
  { browser := some 3, roomSessions := [], defaultPage := 5, nextRef := 10 }

/-- Fixture: a registry before any browser is launched or attached. -/
def hxNoBrowser : HaxState :=
  { browser := none, roomSessions := [], defaultPage := 0, nextRef := 1 }

/-!
## Theorems
-/

/-- the console listener never touches the controller state. -/
theorem onConsoleListener_state (s : RCState) (t m : String) :
    (onConsoleListener s t m).1 = s := by
  unfold onConsoleListener
  split
  · split <;> rfl
  · split <;> rfl

/-- no act of the controller ever resurrects `usable`. -/
theorem stepState_usable_mono (s : RCState) (a : RCAct)
    (h : s.usable = false) : (stepState s a).usable = false := by
  cases a with
  | pageErrorFires => simpa [stepState, onPageErrorListener] using h
  | pageCrashFires => simp [stepState, onPageCrashListener]
  | consoleFires t m => rw [stepState, onConsoleListener_state]; exact h
  | pageCloseFires => simp [stepState, onPageCloseListener]
  | openRoomCall c r => simp [stepState, openRoom, openRoomGuard, h]
  | closeRoomCall r => simp [stepState, closeRoom, h]
  | remoteOnlyOp => exact h

/-- unusable is preserved by any sequence of acts. -/
theorem runActs_usable_mono (acts : List RCAct) :
    ∀ s : RCState, s.usable = false → (runActs s acts).usable = false := by
  induction acts with
  | nil => intro s h; exact h
  | cons a rest ih =>
    intro s h
    exact ih (stepState s a) (stepState_usable_mono s a h)

/-- C1: the `usable` field starts true and is monotonic — no operation or
event handler of the controller ever sets it back to true once false; after
the page reports error (crash) or close, every subsequent observation of
`usable` over any further acts yields false. -/
theorem c1_usable_monotonic :
    rcInitState.usable = true
    ∧ (∀ (s : RCState) (acts : List RCAct),
        s.usable = false → (runActs s acts).usable = false)
    ∧ (∀ (s : RCState) (acts : List RCAct),
        (runActs (stepState s .pageCrashFires) acts).usable = false)
    ∧ (∀ (s : RCState) (acts : List RCAct),
        (runActs (stepState s .pageCloseFires) acts).usable = false) := by
  refine ⟨rfl, ?_, ?_, ?_⟩
  · intro s acts h; exact runActs_usable_mono acts s h
  · intro s acts; exact runActs_usable_mono acts _ rfl
  · intro s acts; exact runActs_usable_mono acts _ rfl

/-- C1 witness: concrete instances of the monotonicity parts. -/
theorem c1_usable_monotonic_witness :
    (runActs rcDead
      [RCAct.remoteOnlyOp, RCAct.pageErrorFires]).usable = false
    ∧ (runActs (stepState rcInitState .pageCrashFires)
        [RCAct.remoteOnlyOp]).usable = false
    ∧ (runActs (stepState rcInitState .pageCloseFires) []).usable = false :=
  ⟨c1_usable_monotonic.2.1 _ _ rfl,
   c1_usable_monotonic.2.2.1 rcInitState _,
   c1_usable_monotonic.2.2.2 rcInitState _⟩

/-- C2: on a usable controller whose openRoomLock is held, openRoom fails
with the already-opening error before consulting RoomOpener.open (the
result does not depend on the oracle outcome, the state and emissions are
untouched); and of two back-to-back openRoom entries on a usable idle
controller, the first proceeds to RoomOpener.open and the second fails
with the already-opening error. -/
theorem c2_alreadyOpening :
    (∀ (s : RCState) (c : RoomConfig) (r : Except RCError RoomInfo),
        s.usable = true → s.openRoomLock = true →
        openRoom s c r = (.error .alreadyOpening, s, []))
    ∧ (∀ (s : RCState) (c₁ c₂ : RoomConfig),
        s.usable = true → s.openRoomLock = false →
        (openRoomGuard s c₁).1 = .ok ()
        ∧ (openRoomGuard (openRoomGuard s c₁).2.1 c₂).1
            = .error .alreadyOpening) := by
  constructor
  · intro s c r h1 h2
    simp [openRoom, openRoomGuard, h1, h2]
  · intro s c₁ c₂ h1 h2
    constructor
    · simp [openRoomGuard, h1, h2]
    · simp [openRoomGuard, h1, h2]

/-- C2 witness: both parts at a concrete controller state. -/
theorem c2_alreadyOpening_witness :
    openRoom rcLocked
        (.vstr "cfg") (.ok (.vstr "info"))
      = (.error .alreadyOpening,
         rcLocked, [])
    ∧ ((openRoomGuard rcInitState (.vstr "cfg")).1 = .ok ()
       ∧ (openRoomGuard (openRoomGuard rcInitState (.vstr "cfg")).2.1
            (.vstr "cfg2")).1 = .error .alreadyOpening) :=
  ⟨c2_alreadyOpening.1 _ _ _ rfl rfl,
   c2_alreadyOpening.2 rcInitState _ _ rfl rfl⟩

/-- C3: on a usable idle controller, when RoomOpener.open throws, openRoom
clears the lock, leaves roomInfo as it was, emits open-room-start then
open-room-error carrying the failure, and resolves without a value
(returns undefined, it neither throws nor returns the error). -/
theorem c3_openRoom_failure (s : RCState) (c : RoomConfig) (e : RCError)
    (h1 : s.usable = true) (h2 : s.openRoomLock = false) :
    openRoom s c (.error e)
      = (.ok none, { s with openRoomLock := false },
         [.openRoomStart c, .openRoomError e]) := by
  simp [openRoom, openRoomGuard, h1, h2]

/-- C3 witness: the failure path at a concrete state and error. -/
theorem c3_openRoom_failure_witness :
    openRoom { usable := true, roomInfo := some (.vstr "old"),
               openRoomLock := false }
        (.vstr "cfg") (.error (.remote "boom"))
      = (.ok none,
         { usable := true, roomInfo := some (.vstr "old"),
           openRoomLock := false },
         [.openRoomStart (.vstr "cfg"), .openRoomError (.remote "boom")]) :=
  c3_openRoom_failure _ _ _ rfl rfl

/-- C7: callRoom fails with the unusable / not-running / missing-argument
errors, in that order, each before any remote call; otherwise it issues
exactly one remote call, converts a failure envelope into the
remote-execution error carrying the remote payload as its message, and
returns the inner result value of a success envelope. -/
theorem c7_callRoom :
    (∀ (s : RCState) (fn : Option String) (env : RemoteEnvelope),
        s.usable = false → callRoom s fn env = (.error .unusable, 0))
    ∧ (∀ (s : RCState) (fn : Option String) (env : RemoteEnvelope),
        s.usable = true → s.running = false →
        callRoom s fn env = (.error .notRunning, 0))
    ∧ (∀ (s : RCState) (fn : Option String) (env : RemoteEnvelope),
        s.usable = true → s.running = true → fnFalsy fn = true →
        callRoom s fn env = (.error (.missingArgument "fn"), 0))
    ∧ (∀ (s : RCState) (fn : Option String) (payload : String),
        s.usable = true → s.running = true → fnFalsy fn = false →
        callRoom s fn (.failure payload)
          = (.error (.remoteExecution payload), 1))
    ∧ (∀ (s : RCState) (fn : Option String) (v : Value),
        s.usable = true → s.running = true → fnFalsy fn = false →
        callRoom s fn (.success v) = (.ok v, 1)) := by
  refine ⟨?_, ?_, ?_, ?_, ?_⟩
  · intro s fn x h1; simp [callRoom, h1]
  · intro s fn x h1 h2; simp [callRoom, h1, h2]
  · intro s fn x h1 h2 h3; simp [callRoom, h1, h2, h3]
  · intro s fn x h1 h2 h3; simp [callRoom, h1, h2, h3]
  · intro s fn x h1 h2 h3; simp [callRoom, h1, h2, h3]

/-- C7 witness: all five cases at concrete inputs. -/
theorem c7_callRoom_witness :
    callRoom rcDead
        (some "getPlayerList") (.success (.vnum 1))
      = (.error .unusable, 0)
    ∧ callRoom rcInitState (some "getPlayerList") (.success (.vnum 1))
      = (.error .notRunning, 0)
    ∧ callRoom rcRunning none (.success (.vnum 1))
      = (.error (.missingArgument "fn"), 0)
    ∧ callRoom rcRunning (some "getPlayerList")
        (.failure "remote says no")
      = (.error (.remoteExecution "remote says no"), 1)
    ∧ callRoom rcRunning (some "getPlayerList")
        (.success (.vnum 1))
      = (.ok (.vnum 1), 1) :=
  ⟨c7_callRoom.1 _ _ _ rfl,
   c7_callRoom.2.1 _ _ _ rfl rfl,
   c7_callRoom.2.2.1 _ _ _ rfl rfl rfl,
   c7_callRoom.2.2.2.1 _ _ _ rfl rfl rfl,
   c7_callRoom.2.2.2.2 _ _ _ rfl rfl rfl⟩

/-- C8: on a usable controller, when RoomOpener.close throws, closeRoom
propagates the error to its caller with the state untouched (roomInfo and
hence running keep their previous values) and emits nothing; roomInfo is
cleared and close-room emitted exactly when RoomOpener.close succeeds. -/
theorem c8_closeRoom_failure :
    (∀ (s : RCState) (e : RCError), s.usable = true →
        closeRoom s (.error e) = (.error e, s, []))
    ∧ (∀ s : RCState, s.usable = true →
        closeRoom s (.ok ())
          = (.ok (), { s with roomInfo := none }, [.closeRoomEv])) := by
  constructor
  · intro s e h; simp [closeRoom, h]
  · intro s h; simp [closeRoom, h]

/-- C8 witness: both branches on a concrete running controller. -/
theorem c8_closeRoom_failure_witness :
    closeRoom rcRunning (.error (.remote "boom"))
      = (.error (.remote "boom"),
         rcRunning, [])
    ∧ closeRoom rcRunning (.ok ())
      = (.ok (), { usable := true, roomInfo := none,
                   openRoomLock := false }, [.closeRoomEv]) :=
  ⟨c8_closeRoom_failure.1 _ _ rfl, c8_closeRoom_failure.2 _ rfl⟩

/-- C10: the constructor never throws INVALID_PORT — the computed port is
never zero, making the error branch unreachable for every input — and a
port option of 0 is silently replaced by the default 3066. -/
theorem c10_port_zero_default :
    (∀ optPort : Option Int,
        haxroomieCtorPort optPort ≠ .error .invalidPort)
    ∧ haxroomieCtorPort (some 0) = .ok 3066 := by
  constructor
  · intro optPort
    cases optPort with
    | none => simp [haxroomieCtorPort, haxroomiePort]
    | some p =>
      by_cases hp : p = 0
      · simp [haxroomieCtorPort, haxroomiePort, hp]
      · simp [haxroomieCtorPort, haxroomiePort, hp]
  · rfl

/-- C10 witness: the theorem applied at the concrete port option 0. -/
theorem c10_port_zero_default_witness :
    haxroomieCtorPort (some 0) ≠ .error .invalidPort
    ∧ haxroomieCtorPort (some 0) = .ok 3066 :=
  ⟨c10_port_zero_default.1 (some 0), c10_port_zero_default.2⟩

/-- C5 counterexample: getPluginConfig, though listed among the guarded
plugin operations, performs no usable/running check — on an unusable (and
not running) controller it still issues its remote call and succeeds
instead of failing with the unusable error. -/
theorem c5_guards_counterexample :
    getPluginConfig rcDead none (.ok (.vnum 7)) (.ok (.vnum 7))
      = (.ok (.vnum 7), 1)
    ∧ (getPluginConfig rcDead none (.ok (.vnum 7)) (.ok (.vnum 7))).1
      ≠ .error RCError.unusable := by
  constructor
  · rfl
  · decide

/-- C5 amended: every plugin-management operation of the list except
getPluginConfig fails with the unusable error when the controller is not
usable and with the not-running error when it is usable but no room is
open, in both cases before issuing any remote call; getPluginConfig
performs neither check and always issues exactly one remote call,
independent of the controller state. -/
theorem c5_guards_amended :
    (∀ (s : RCState) r, s.usable = false →
        getPlugins s r = (.error .unusable, 0))
    ∧ (∀ (s : RCState) r, s.usable = true → s.running = false →
        getPlugins s r = (.error .notRunning, 0))
    ∧ (∀ (s : RCState) n r, s.usable = false →
        getPlugin s n r = (.error .unusable, 0))
    ∧ (∀ (s : RCState) n r, s.usable = true → s.running = false →
        getPlugin s n r = (.error .notRunning, 0))
    ∧ (∀ (s : RCState) n r, s.usable = false →
        enablePlugin s n r = (.error .unusable, 0))
    ∧ (∀ (s : RCState) n r, s.usable = true → s.running = false →
        enablePlugin s n r = (.error .notRunning, 0))
    ∧ (∀ (s : RCState) n r, s.usable = false →
        disablePlugin s n r = (.error .unusable, 0))
    ∧ (∀ (s : RCState) n r, s.usable = true → s.running = false →
        disablePlugin s n r = (.error .notRunning, 0))
    ∧ (∀ (s : RCState) n r, s.usable = false →
        hasPlugin s n r = (.error .unusable, 0))
    ∧ (∀ (s : RCState) n r, s.usable = true → s.running = false →
        hasPlugin s n r = (.error .notRunning, 0))
    ∧ (∀ (s : RCState) p r, s.usable = false →
        addPlugin s p r = (.error .unusable, 0))
    ∧ (∀ (s : RCState) p r, s.usable = true → s.running = false →
        addPlugin s p r = (.error .notRunning, 0))
    ∧ (∀ (s : RCState) n r, s.usable = false →
        getPluginsThatDependOn s n r = (.error .unusable, 0))
    ∧ (∀ (s : RCState) n r, s.usable = true → s.running = false →
        getPluginsThatDependOn s n r = (.error .notRunning, 0))
    ∧ (∀ (s : RCState) repo ap r, s.usable = false →
        addRepository s repo ap r = (.error .unusable, 0))
    ∧ (∀ (s : RCState) repo ap r, s.usable = true → s.running = false →
        addRepository s repo ap r = (.error .notRunning, 0))
    ∧ (∀ (s : RCState) r, s.usable = false →
        getRepositories s r = (.error .unusable, 0))
    ∧ (∀ (s : RCState) r, s.usable = true → s.running = false →
        getRepositories s r = (.error .notRunning, 0))
    ∧ (∀ (s : RCState) r, s.usable = false →
        clearRepositories s r = (.error .unusable, 0))
    ∧ (∀ (s : RCState) r, s.usable = true → s.running = false →
        clearRepositories s r = (.error .notRunning, 0))
    ∧ (∀ (s : RCState) pc pn sr re, s.usable = false →
        setPluginConfig s pc pn sr re = (.error .unusable, []))
    ∧ (∀ (s : RCState) pc pn sr re, s.usable = true → s.running = false →
        setPluginConfig s pc pn sr re = (.error .notRunning, []))
    ∧ (∀ (s s₂ : RCState) pn rs ra,
        (getPluginConfig s pn rs ra).2 = 1
        ∧ getPluginConfig s pn rs ra = getPluginConfig s₂ pn rs ra) := by
  refine ⟨?_, ?_, ?_, ?_, ?_, ?_, ?_, ?_, ?_, ?_, ?_, ?_,
          ?_, ?_, ?_, ?_, ?_, ?_, ?_, ?_, ?_, ?_, ?_⟩
  · intro s r h; simp [getPlugins, h]
  · intro s r h1 h2; simp [getPlugins, h1, h2]
  · intro s n r h; simp [getPlugin, h]
  · intro s n r h1 h2; simp [getPlugin, h1, h2]
  · intro s n r h; simp [enablePlugin, h]
  · intro s n r h1 h2; simp [enablePlugin, h1, h2]
  · intro s n r h; simp [disablePlugin, h]
  · intro s n r h1 h2; simp [disablePlugin, h1, h2]
  · intro s n r h; simp [hasPlugin, h]
  · intro s n r h1 h2; simp [hasPlugin, h1, h2]
  · intro s p r h; simp [addPlugin, h]
  · intro s p r h1 h2; simp [addPlugin, h1, h2]
  · intro s n r h; simp [getPluginsThatDependOn, h]
  · intro s n r h1 h2; simp [getPluginsThatDependOn, h1, h2]
  · intro s repo ap r h; simp [addRepository, h]
  · intro s repo ap r h1 h2; simp [addRepository, h1, h2]
  · intro s r h; simp [getRepositories, h]
  · intro s r h1 h2; simp [getRepositories, h1, h2]
  · intro s r h; simp [clearRepositories, h]
  · intro s r h1 h2; simp [clearRepositories, h1, h2]
  · intro s pc pn sr re h; simp [setPluginConfig, h]
  · intro s pc pn sr re h1 h2; simp [setPluginConfig, h1, h2]
  · intro s s₂ pn rs ra
    cases pn <;> exact ⟨rfl, rfl⟩

/-- C5 witness: every guarded operation exercised on a concrete unusable
controller and on a concrete usable idle controller, plus the unguarded
getPluginConfig on both. -/
theorem c5_guards_amended_witness :
    getPlugins rcDead
        (.ok []) = (.error .unusable, 0)
    ∧ getPlugins rcInitState (.ok []) = (.error .notRunning, 0)
    ∧ getPlugin rcDead
        "p" (.ok none) = (.error .unusable, 0)
    ∧ getPlugin rcInitState "p" (.ok none) = (.error .notRunning, 0)
    ∧ enablePlugin rcDead "p" (.ok true) = (.error .unusable, 0)
    ∧ enablePlugin rcInitState "p" (.ok true) = (.error .notRunning, 0)
    ∧ disablePlugin rcDead ["p"] (.ok true) = (.error .unusable, 0)
    ∧ disablePlugin rcInitState ["p"] (.ok true) = (.error .notRunning, 0)
    ∧ hasPlugin rcDead
        "p" (.ok true) = (.error .unusable, 0)
    ∧ hasPlugin rcInitState "p" (.ok true) = (.error .notRunning, 0)
    ∧ addPlugin rcDead
        (.vstr "src") (.ok 1) = (.error .unusable, 0)
    ∧ addPlugin rcInitState (.vstr "src") (.ok 1) = (.error .notRunning, 0)
    ∧ getPluginsThatDependOn rcDead "p" (.ok []) = (.error .unusable, 0)
    ∧ getPluginsThatDependOn rcInitState "p" (.ok [])
      = (.error .notRunning, 0)
    ∧ addRepository rcDead (some (.vstr "u")) none (.ok true)
      = (.error .unusable, 0)
    ∧ addRepository rcInitState (some (.vstr "u")) none (.ok true)
      = (.error .notRunning, 0)
    ∧ getRepositories rcDead (.ok []) = (.error .unusable, 0)
    ∧ getRepositories rcInitState (.ok []) = (.error .notRunning, 0)
    ∧ clearRepositories rcDead (.ok ()) = (.error .unusable, 0)
    ∧ clearRepositories rcInitState (.ok ()) = (.error .notRunning, 0)
    ∧ setPluginConfig rcDead (some []) none (.ok ()) resolveFailsOnX
      = (.error .unusable, [])
    ∧ setPluginConfig rcInitState (some []) none (.ok ()) resolveFailsOnX
      = (.error .notRunning, [])
    ∧ ((getPluginConfig rcDead none (.ok (.vnum 7)) (.ok (.vnum 7))).2 = 1
       ∧ getPluginConfig rcDead none (.ok (.vnum 7)) (.ok (.vnum 7))
         = getPluginConfig rcInitState none (.ok (.vnum 7)) (.ok (.vnum 7))) :=
  ⟨c5_guards_amended.1 _ _ rfl,
   c5_guards_amended.2.1 _ _ rfl rfl,
   c5_guards_amended.2.2.1 _ _ _ rfl,
   c5_guards_amended.2.2.2.1 _ _ _ rfl rfl,
   c5_guards_amended.2.2.2.2.1 _ _ _ rfl,
   c5_guards_amended.2.2.2.2.2.1 _ _ _ rfl rfl,
   c5_guards_amended.2.2.2.2.2.2.1 _ _ _ rfl,
   c5_guards_amended.2.2.2.2.2.2.2.1 _ _ _ rfl rfl,
   c5_guards_amended.2.2.2.2.2.2.2.2.1 _ _ _ rfl,
   c5_guards_amended.2.2.2.2.2.2.2.2.2.1 _ _ _ rfl rfl,
   c5_guards_amended.2.2.2.2.2.2.2.2.2.2.1 _ _ _ rfl,
   c5_guards_amended.2.2.2.2.2.2.2.2.2.2.2.1 _ _ _ rfl rfl,
   c5_guards_amended.2.2.2.2.2.2.2.2.2.2.2.2.1 _ _ _ rfl,
   c5_guards_amended.2.2.2.2.2.2.2.2.2.2.2.2.2.1 _ _ _ rfl rfl,
   c5_guards_amended.2.2.2.2.2.2.2.2.2.2.2.2.2.2.1 _ _ _ _ rfl,
   c5_guards_amended.2.2.2.2.2.2.2.2.2.2.2.2.2.2.2.1 _ _ _ _ rfl rfl,
   c5_guards_amended.2.2.2.2.2.2.2.2.2.2.2.2.2.2.2.2.1 _ _ rfl,
   c5_guards_amended.2.2.2.2.2.2.2.2.2.2.2.2.2.2.2.2.2.1 _ _ rfl rfl,
   c5_guards_amended.2.2.2.2.2.2.2.2.2.2.2.2.2.2.2.2.2.2.1 _ _ rfl,
   c5_guards_amended.2.2.2.2.2.2.2.2.2.2.2.2.2.2.2.2.2.2.2.1 _ _ rfl rfl,
   c5_guards_amended.2.2.2.2.2.2.2.2.2.2.2.2.2.2.2.2.2.2.2.2.1
     _ _ _ _ _ rfl,
   c5_guards_amended.2.2.2.2.2.2.2.2.2.2.2.2.2.2.2.2.2.2.2.2.2.1
     _ _ _ _ _ rfl rfl,
   c5_guards_amended.2.2.2.2.2.2.2.2.2.2.2.2.2.2.2.2.2.2.2.2.2.2
     _ rcInitState _ _ _⟩

/-- the unscoped setPluginConfig loop applies entries first to last and
stops at the first failing entry: every earlier entry got its remote call,
the failing entry raises its error, nothing after it is attempted. -/
theorem setPluginConfigEntries_stops (resolveEntry : String → Value →
    Except RCError Unit) (x : String) (cfg : Value) (e : RCError)
    (hx : resolveEntry x cfg = .error e) :
    ∀ (pre : List (String × Value)) (rest : List (String × Value)),
      (∀ p ∈ pre, resolveEntry p.1 p.2 = .ok ()) →
      setPluginConfigEntries resolveEntry (pre ++ (x, cfg) :: rest)
        = (.error e, pre.map Prod.fst ++ [x]) := by
  intro pre
  induction pre with
  | nil => intro rest _; simp [setPluginConfigEntries, hx]
  | cons p ps ih =>
    intro rest hpre
    obtain ⟨n, c⟩ := p
    have hp : resolveEntry n c = .ok () :=
      hpre (n, c) (List.mem_cons_self _ _)
    have hps : ∀ q ∈ ps, resolveEntry q.1 q.2 = .ok () :=
      fun q hq => hpre q (List.mem_cons_of_mem _ hq)
    simp [setPluginConfigEntries, hp, ih rest hps]

/-- C6 counterexample: on a running controller,
setPluginConfig with entries x then y, where x cannot be auto-loaded,
raises the resolution error for x and never attempts y — refuting the
claim that every later entry is still attempted. -/
theorem c6_fanout_counterexample :
    setPluginConfig rcRunning
        (some [("x", .vnum 1), ("y", .vnum 2)]) none (.ok ()) resolveFailsOnX
      = (.error (.resolution "x"), ["x"])
    ∧ "y" ∉ (setPluginConfig rcRunning
        (some [("x", .vnum 1), ("y", .vnum 2)]) none (.ok ())
        resolveFailsOnX).2 := by
  constructor
  · rfl
  · decide

/-- C6 amended: the unscoped setPluginConfig applies its entries
sequentially and non-atomically — every entry before the first failing
entry x has already received its remote resolve-and-merge call (earlier
successes are kept), x fails with its resolution error which propagates
out of setPluginConfig to the caller, and no entry after x is attempted. -/
theorem c6_setPluginConfig_sequential (s : RCState)
    (resolveEntry : String → Value → Except RCError Unit)
    (pre rest : List (String × Value)) (x : String) (cfg : Value)
    (e : RCError) (h1 : s.usable = true) (h2 : s.running = true)
    (hpre : ∀ p ∈ pre, resolveEntry p.1 p.2 = .ok ())
    (hx : resolveEntry x cfg = .error e) :
    setPluginConfig s (some (pre ++ (x, cfg) :: rest)) none (.ok ())
        resolveEntry
      = (.error e, pre.map Prod.fst ++ [x]) := by
  simp [setPluginConfig, h1, h2,
    setPluginConfigEntries_stops resolveEntry x cfg e hx pre rest hpre]

/-- C6 witness: the amended theorem at a concrete three-entry map whose
middle entry fails to resolve. -/
theorem c6_setPluginConfig_sequential_witness :
    setPluginConfig rcRunning
        (some [("w", .vnum 0), ("x", .vnum 1), ("y", .vnum 2)]) none
        (.ok ()) resolveFailsOnX
      = (.error (.resolution "x"), ["w", "x"]) :=
  c6_setPluginConfig_sequential _ resolveFailsOnX [("w", .vnum 0)]
    [("y", .vnum 2)] "x" (.vnum 1) (.resolution "x") rfl rfl
    (by decide) (by decide)

/-- a valid session id never trips the missing-argument rejection. -/
theorem validSessionID_reject (i : JsId)
    (hv : validSessionID (some i) = true) :
    (i.falsy && !(i == JsId.num 0)) = false := by
  unfold validSessionID at hv
  cases hf : i.falsy <;> cases hz : (i == JsId.num 0) <;> simp_all

/-- a successful lookup means the session map is nonempty. -/
theorem lookupSession_isEmpty (m : List (JsId × RC)) (i : JsId) (rc : RC)
    (h : lookupSession m i = some rc) : m.isEmpty = false := by
  cases m with
  | nil => simp [lookupSession] at h
  | cons p rest => rfl

/-- a controller registered at the tail under a previously unseen id is
found by a later lookup. -/
theorem lookupSession_append (m : List (JsId × RC)) (i : JsId) (rc : RC)
    (h : lookupSession m i = none) :
    lookupSession (m ++ [(i, rc)]) i = some rc := by
  induction m with
  | nil => simp [lookupSession]
  | cons p rest ih =>
    by_cases hp : (p.1 == i) = true
    · simp [lookupSession, hp] at h
    · simp only [lookupSession, hp, List.cons_append, if_false,
        Bool.false_eq_true, ite_false] at h ⊢
      exact ih h

/-- getSession on a registered identifier returns the stored controller
session and leaves the registry untouched, whatever the stored controller
state (in particular even if it is no longer usable). -/
theorem getSession_registered (st : HaxState) (b : Nat) (i : JsId) (rc : RC)
    (hb : st.browser = some b) (hv : validSessionID (some i) = true)
    (hl : lookupSession st.roomSessions i = some rc) :
    getSession st (some i) = (.ok rc.session, st) := by
  have hr := validSessionID_reject i hv
  have hne := lookupSession_isEmpty st.roomSessions i rc hl
  simp [getSession, hb, hr, hne, hl]

/-- getSession on an empty registry binds the browser default page. -/
theorem getSession_empty (st : HaxState) (b : Nat) (i : JsId)
    (hb : st.browser = some b) (hv : validSessionID (some i) = true)
    (he : st.roomSessions.isEmpty = true) :
    getSession st (some i) = initSession st st.defaultPage i := by
  have hr := validSessionID_reject i hv
  simp [getSession, hb, hr, he]

/-- getSession on a nonempty registry and an unseen id creates a fresh
page and registers a controller on it. -/
theorem getSession_unseen (st : HaxState) (b : Nat) (i : JsId)
    (hb : st.browser = some b) (hv : validSessionID (some i) = true)
    (he : st.roomSessions.isEmpty = false)
    (hl : lookupSession st.roomSessions i = none) :
    getSession st (some i)
      = initSession { st with nextRef := st.nextRef + 1 } st.nextRef i := by
  have hr := validSessionID_reject i hv
  simp [getSession, hb, hr, he, hl]

/-- a second getSession right after a session was initialised returns the
very pair the initialisation produced. -/
theorem getSession_after_init (st : HaxState) (pageRef : Nat) (b : Nat)
    (i : JsId) (hb : st.browser = some b)
    (hv : validSessionID (some i) = true)
    (hl : lookupSession st.roomSessions i = none) :
    getSession (initSession st pageRef i).2 (some i)
      = ((initSession st pageRef i).1, (initSession st pageRef i).2) := by
  have hl2 : lookupSession ((initSession st pageRef i).2).roomSessions i
      = some { id := i, pageRef := pageRef, ctrl := rcInitState,
               session := st.nextRef } :=
    lookupSession_append st.roomSessions i _ hl
  exact getSession_registered _ b i _ hb hv hl2

/-- C4: with a running browser and a valid identifier, getSession on a
registered identifier returns the stored controller session unchanged with
the registry untouched — for any stored controller, so no usability is
re-validated — and after a first call registered an identifier, a second
call with the same identifier returns exactly the same result and state:
the identical session reference, with nothing new allocated. -/
theorem c4_getSession_stable :
    (∀ (st : HaxState) (b : Nat) (i : JsId) (rc : RC),
        st.browser = some b → validSessionID (some i) = true →
        lookupSession st.roomSessions i = some rc →
        getSession st (some i) = (.ok rc.session, st))
    ∧ (∀ (st : HaxState) (b : Nat) (i : JsId),
        st.browser = some b → validSessionID (some i) = true →
        lookupSession st.roomSessions i = none →
        getSession (getSession st (some i)).2 (some i)
          = getSession st (some i)) := by
  constructor
  · intro st b i rc hb hv hl
    exact getSession_registered st b i rc hb hv hl
  · intro st b i hb hv hl
    cases he : st.roomSessions.isEmpty with
    | true =>
      rw [getSession_empty st b i hb hv he]
      exact getSession_after_init st st.defaultPage b i hb hv hl
    | false =>
      rw [getSession_unseen st b i hb hv he hl]
      exact getSession_after_init { st with nextRef := st.nextRef + 1 }
        st.nextRef b i hb hv hl

/-- C4 witness: on a fresh registry, the first call for id a allocates
session reference 10; the second call returns the identical reference with
the registry state unchanged. -/
theorem c4_getSession_stable_witness :
    getSession (getSession hxFresh (some (.str "a"))).2 (some (.str "a"))
      = getSession hxFresh (some (.str "a"))
    ∧ getSession (getSession hxFresh (some (.str "a"))).2 (some (.str "a"))
      = (.ok 10, (getSession hxFresh (some (.str "a"))).2) :=
  ⟨c4_getSession_stable.2 hxFresh 3 (.str "a") rfl (by decide) rfl,
   c4_getSession_stable.1 (getSession hxFresh (some (.str "a"))).2 3
     (.str "a")
     { id := .str "a", pageRef := 5, ctrl := rcInitState, session := 10 }
     rfl (by decide) (by decide)⟩

/-- with a browser handle set, getSession never reports the
browser-not-running error, whatever its argument. -/
theorem getSession_browser_present (st : HaxState) (b : Nat)
    (sid : Option JsId) (hb : st.browser = some b) :
    (getSession st sid).1 ≠ .error .browserNotRunning := by
  cases sid with
  | none => simp [getSession, hb]
  | some i =>
    simp only [getSession, hb]
    split
    · simp
    · split
      · simp [initSession]
      · split <;> simp [initSession]

/-- C9: when the reachability probe connects to an already-running browser,
createBrowser fails with BROWSER_RUNNING but has set the registry browser
field to the attached handle as a side effect, so a subsequent getSession
on the same registry never fails with the browser-not-running error. -/
theorem c9_browser_attached :
    ∀ (st : HaxState) (b launched : Nat) (sid : Option JsId),
      createBrowser st (some b) launched
        = (.error .browserRunning, { st with browser := some b })
      ∧ (getSession { st with browser := some b } sid).1
          ≠ .error .browserNotRunning := by
  intro st b launched sid
  exact ⟨rfl, getSession_browser_present _ b sid rfl⟩

/-- C9 witness: the theorem at a concrete registry with no browser. -/
theorem c9_browser_attached_witness :
    createBrowser hxNoBrowser (some 7) 9
      = (.error .browserRunning, { hxNoBrowser with browser := some 7 })
    ∧ (getSession { hxNoBrowser with browser := some 7 }
        (some (.str "a"))).1 ≠ .error .browserNotRunning :=
  c9_browser_attached hxNoBrowser 7 9 (some (.str "a"))
